import Mathlib

/-!
Shallow embedding of the qml tutorial scripts
(`tutorial_vqe_spin_sectors.py`, `tutorial_vqe_bond_dissociation.py`,
`tutorial_quantum_chemistry.py`) together with theorems settling the
claims of the natural-language specification.

Numeric values computed by the Python scripts are embedded as rationals.
The external optimizer call `opt.step_and_cost(cost_fn, theta)` is kept
abstract as a function `sc : P → P × ℚ` returning the updated parameter
vector and an energy value; where a claim needs the library contract
(the returned energy is the cost at the pre-step parameters, as the
spin-sectors script's own variable name `prev_energy` records), it is
stated as an explicit hypothesis `∀ θ, (sc θ).2 = cost θ`.
-/

/-- Convergence tolerance used by both VQE loops (`conv_tol = 1e-06` in
`tutorial_vqe_spin_sectors.py`, the literal `1e-6` in
`tutorial_vqe_bond_dissociation.py`). -/
def conv_tol : ℚ := 1 / 1000000

/-- Maximum iteration count of the spin-sectors loops
(`max_iterations = 100`). -/
def max_iterations : ℕ := 100

/-- The sequence of parameter vectors produced by repeatedly applying the
optimizer update: `theta, _ = opt.step_and_cost(cost_fn, theta)`. -/
def thetaSeq {P : Type} (sc : P → P × ℚ) (θ0 : P) : ℕ → P
  | 0 => θ0
  | n + 1 => (sc (thetaSeq sc θ0 n)).1

/-- The convergence quantity tested at iteration `n` of the spin-sectors
loop: `conv = np.abs(energy - prev_energy)` where
`theta, prev_energy = opt.step_and_cost(cost_fn, theta)` and
`energy = cost_fn(theta)` is recomputed at the updated parameters. -/
def spinConv {P : Type} (sc : P → P × ℚ) (cost : P → ℚ) (θ0 : P) (n : ℕ) : ℚ :=
  |cost (thetaSeq sc θ0 (n + 1)) - (sc (thetaSeq sc θ0 n)).2|

/-- Number of loop iterations executed by the spin-sectors loop
`for n in range(fuel)` with body
`theta, prev_energy = opt.step_and_cost(cost_fn, theta);
energy = cost_fn(theta); conv = np.abs(energy - prev_energy);
if conv <= conv_tol: break`. -/
def spinIters {P : Type} (sc : P → P × ℚ) (cost : P → ℚ) : ℕ → P → ℕ
  | 0, _ => 0
  | fuel + 1, θ =>
    if |cost ((sc θ).1) - (sc θ).2| ≤ conv_tol then 1
    else spinIters sc cost fuel ((sc θ).1) + 1

/-- The energy value produced at iteration `n` of the bond-dissociation
loop: `params, energy = opt.step_and_cost(cost_fn, params)` — the second
component returned by the optimizer call at the iteration's incoming
parameter vector. -/
def bondE {P : Type} (sc : P → P × ℚ) (p0 : P) (n : ℕ) : ℚ :=
  (sc (thetaSeq sc p0 n)).2

/-- The convergence quantity `np.abs(energy - prev_energy)` tested at
iteration `n` of the bond-dissociation loop when the tracked previous
energy starts at `prev0` (`prev_energy = 0.0` in the script). -/
def bondConvG {P : Type} (sc : P → P × ℚ) (p0 : P) (prev0 : ℚ) : ℕ → ℚ
  | 0 => |bondE sc p0 0 - prev0|
  | n + 1 => |bondE sc p0 (n + 1) - bondE sc p0 n|

/-- The convergence quantity tested at iteration `n` of the
bond-dissociation loop as written, with `prev_energy` initialized to
`0.0`. -/
def bondConv {P : Type} (sc : P → P × ℚ) (p0 : P) : ℕ → ℚ :=
  bondConvG sc p0 0

/-- Number of loop iterations executed by the bond-dissociation loop
`for n in range(fuel)` with body
`params, energy = opt.step_and_cost(cost_fn, params);
if np.abs(energy - prev_energy) < 1e-6: break; prev_energy = energy`,
started with previous energy `prevE` (`0.0` in the script). -/
def bondIters {P : Type} (sc : P → P × ℚ) : ℕ → P → ℚ → ℕ
  | 0, _, _ => 0
  | fuel + 1, p, prevE =>
    if |(sc p).2 - prevE| < conv_tol then 1
    else bondIters sc fuel ((sc p).1) ((sc p).2) + 1

/- Shifting lemmas: the loop bodies advance the parameter vector by one
optimizer step, so sequences from `θ0` at index `n + 1` coincide with
sequences from `(sc θ0).1` at index `n`. -/

lemma thetaSeq_shift {P : Type} (sc : P → P × ℚ) (θ0 : P) (n : ℕ) :
    thetaSeq sc θ0 (n + 1) = thetaSeq sc ((sc θ0).1) n := by
  induction n with
  | zero => rfl
  | succ n ih =>
    show (sc (thetaSeq sc θ0 (n + 1))).1 = (sc (thetaSeq sc ((sc θ0).1) n)).1
    rw [ih]

lemma spinConv_shift {P : Type} (sc : P → P × ℚ) (cost : P → ℚ) (θ0 : P) (n : ℕ) :
    spinConv sc cost θ0 (n + 1) = spinConv sc cost ((sc θ0).1) n := by
  simp only [spinConv, thetaSeq_shift]

lemma bondE_shift {P : Type} (sc : P → P × ℚ) (p0 : P) (n : ℕ) :
    bondE sc p0 (n + 1) = bondE sc ((sc p0).1) n := by
  simp only [bondE, thetaSeq_shift]

lemma bondConvG_shift {P : Type} (sc : P → P × ℚ) (p0 : P) (prevE : ℚ) (n : ℕ) :
    bondConvG sc p0 prevE (n + 1) = bondConvG sc ((sc p0).1) ((sc p0).2) n := by
  cases n with
  | zero =>
    simp only [bondConvG]
    rw [bondE_shift sc p0 0]
    rfl
  | succ m =>
    simp only [bondConvG]
    rw [bondE_shift sc p0 (m + 1), bondE_shift sc p0 m]

lemma spinIters_le_fuel {P : Type} (sc : P → P × ℚ) (cost : P → ℚ)
    (fuel : ℕ) (θ : P) : spinIters sc cost fuel θ ≤ fuel := by
  induction fuel generalizing θ with
  | zero => simp [spinIters]
  | succ fuel ih =>
    simp only [spinIters]
    split
    · omega
    · have := ih ((sc θ).1)
      omega

lemma bondIters_le_fuel {P : Type} (sc : P → P × ℚ)
    (fuel : ℕ) (p : P) (prevE : ℚ) : bondIters sc fuel p prevE ≤ fuel := by
  induction fuel generalizing p prevE with
  | zero => simp [bondIters]
  | succ fuel ih =>
    simp only [bondIters]
    split
    · omega
    · have := ih ((sc p).1) ((sc p).2)
      omega

/- Stopping lemmas: once a tested convergence quantity passes the break
test, the loop performs no further iterations; until then it keeps
iterating. -/

lemma spinIters_stop {P : Type} (sc : P → P × ℚ) (cost : P → ℚ) (θ0 : P)
    (k fuel : ℕ) (h : spinConv sc cost θ0 k ≤ conv_tol) :
    spinIters sc cost fuel θ0 ≤ k + 1 := by
  induction k generalizing θ0 fuel with
  | zero =>
    cases fuel with
    | zero => simp [spinIters]
    | succ fuel =>
      simp only [spinIters]
      split
      · omega
      · exact absurd h ‹¬ _›
  | succ k ih =>
    cases fuel with
    | zero => simp [spinIters]
    | succ fuel =>
      simp only [spinIters]
      split
      · omega
      · have hrec := ih ((sc θ0).1) fuel (by rw [← spinConv_shift]; exact h)
        omega

lemma spinIters_min {P : Type} (sc : P → P × ℚ) (cost : P → ℚ) (θ0 : P)
    (k fuel : ℕ) (h : ∀ j, j < k → conv_tol < spinConv sc cost θ0 j)
    (hk : k < fuel) : k + 1 ≤ spinIters sc cost fuel θ0 := by
  induction k generalizing θ0 fuel with
  | zero =>
    cases fuel with
    | zero => omega
    | succ fuel =>
      simp only [spinIters]
      split
      · omega
      · have := spinIters_le_fuel sc cost fuel ((sc θ0).1)
        omega
  | succ k ih =>
    cases fuel with
    | zero => omega
    | succ fuel =>
      simp only [spinIters]
      split
      · exfalso
        have h0 := h 0 (by omega)
        exact absurd ‹_› (not_le.mpr h0)
      · have hrec := ih ((sc θ0).1) fuel
          (fun j hj => by rw [← spinConv_shift]; exact h (j + 1) (by omega))
          (by omega)
        omega

lemma spinIters_eq_stop {P : Type} (sc : P → P × ℚ) (cost : P → ℚ) (θ0 : P)
    (k fuel : ℕ) (h : ∀ j, j < k → conv_tol < spinConv sc cost θ0 j)
    (hc : spinConv sc cost θ0 k ≤ conv_tol) (hk : k < fuel) :
    spinIters sc cost fuel θ0 = k + 1 :=
  le_antisymm (spinIters_stop sc cost θ0 k fuel hc)
    (spinIters_min sc cost θ0 k fuel h hk)

lemma spinIters_eq_max {P : Type} (sc : P → P × ℚ) (cost : P → ℚ) (θ0 : P)
    (fuel : ℕ) (h : ∀ j, j < fuel → conv_tol < spinConv sc cost θ0 j) :
    spinIters sc cost fuel θ0 = fuel := by
  cases fuel with
  | zero => rfl
  | succ fuel =>
    exact le_antisymm (spinIters_le_fuel sc cost _ _)
      (spinIters_min sc cost θ0 fuel (fuel + 1) (fun j hj => h j (by omega))
        (by omega))

lemma bondIters_stop {P : Type} (sc : P → P × ℚ) (p0 : P) (prevE : ℚ)
    (k fuel : ℕ) (h : bondConvG sc p0 prevE k < conv_tol) :
    bondIters sc fuel p0 prevE ≤ k + 1 := by
  induction k generalizing p0 prevE fuel with
  | zero =>
    cases fuel with
    | zero => simp [bondIters]
    | succ fuel =>
      simp only [bondIters]
      split
      · omega
      · exact absurd h ‹¬ _›
  | succ k ih =>
    cases fuel with
    | zero => simp [bondIters]
    | succ fuel =>
      simp only [bondIters]
      split
      · omega
      · have hrec := ih ((sc p0).1) ((sc p0).2) fuel
          (by rw [← bondConvG_shift sc p0 prevE]; exact h)
        omega

lemma bondIters_min {P : Type} (sc : P → P × ℚ) (p0 : P) (prevE : ℚ)
    (k fuel : ℕ) (h : ∀ j, j < k → conv_tol ≤ bondConvG sc p0 prevE j)
    (hk : k < fuel) : k + 1 ≤ bondIters sc fuel p0 prevE := by
  induction k generalizing p0 prevE fuel with
  | zero =>
    cases fuel with
    | zero => omega
    | succ fuel =>
      simp only [bondIters]
      split
      · omega
      · have := bondIters_le_fuel sc fuel ((sc p0).1) ((sc p0).2)
        omega
  | succ k ih =>
    cases fuel with
    | zero => omega
    | succ fuel =>
      simp only [bondIters]
      split
      · exfalso
        have h0 := h 0 (by omega)
        exact absurd ‹_› (not_lt.mpr h0)
      · have hrec := ih ((sc p0).1) ((sc p0).2) fuel
          (fun j hj => by
            rw [← bondConvG_shift sc p0 prevE]; exact h (j + 1) (by omega))
          (by omega)
        omega

lemma bondIters_eq_stop {P : Type} (sc : P → P × ℚ) (p0 : P) (prevE : ℚ)
    (k fuel : ℕ) (h : ∀ j, j < k → conv_tol ≤ bondConvG sc p0 prevE j)
    (hc : bondConvG sc p0 prevE k < conv_tol) (hk : k < fuel) :
    bondIters sc fuel p0 prevE = k + 1 :=
  le_antisymm (bondIters_stop sc p0 prevE k fuel hc)
    (bondIters_min sc p0 prevE k fuel h hk)

lemma bondIters_eq_max {P : Type} (sc : P → P × ℚ) (p0 : P) (prevE : ℚ)
    (fuel : ℕ) (h : ∀ j, j < fuel → conv_tol ≤ bondConvG sc p0 prevE j) :
    bondIters sc fuel p0 prevE = fuel := by
  cases fuel with
  | zero => rfl
  | succ fuel =>
    exact le_antisymm (bondIters_le_fuel sc _ _ _)
      (bondIters_min sc p0 prevE fuel (fuel + 1) (fun j hj => h j (by omega))
        (by omega))

/-!  Modelled external-library operations.  The scripts delegate these to
the quantum-chemistry library; the spec treats them as opaque
collaborators, so they are modelled here from the spec's own
descriptions. -/

/-- Modelled from the spec: missing external `qml.qchem.excitations`.
Twice the spin projection of spin-orbital (qubit) `i`: even and odd
indices correspond, respectively, to spin-up (+1/2) and spin-down
(-1/2) orbitals, kept in halves so the value stays an integer. -/
def sz2 (i : ℕ) : ℤ := if i % 2 = 0 then 1 else -1

/-- The unoccupied (virtual) spin-orbital indices
`electrons, electrons+1, ..., orbitals-1` above the reference occupation
in which the lowest `electrons` spin-orbitals are filled. -/
def virtualList (electrons orbitals : ℕ) : List ℕ :=
  (List.range (orbitals - electrons)).map (· + electrons)

/-- Modelled from the spec: missing external `qml.qchem.excitations`
(single excitations).  Particle-hole single excitations `(r, p)` from an
occupied spin-orbital `r` to a virtual spin-orbital `p` relative to the
reference occupation, filtered by the spin-projection difference
`dsz2 = 2 * delta_sz`. -/
def singlesExc (electrons orbitals : ℕ) (dsz2 : ℤ) : List (ℕ × ℕ) :=
  (((List.range electrons).flatMap fun r =>
      (virtualList electrons orbitals).map fun p => (r, p))).filter
    fun rp => sz2 rp.2 - sz2 rp.1 = dsz2

/-- Modelled from the spec: missing external `qml.qchem.excitations`
(double excitations).  Particle-hole double excitations `(s, r, q, p)`
with occupied `s < r` and virtual `q < p`, filtered by the
spin-projection difference `dsz2 = 2 * delta_sz`. -/
def doublesExc (electrons orbitals : ℕ) (dsz2 : ℤ) : List (ℕ × ℕ × ℕ × ℕ) :=
  (((List.range electrons).flatMap fun r =>
      (List.range r).flatMap fun s =>
        (virtualList electrons orbitals).flatMap fun p =>
          ((List.range (orbitals - electrons)).map (· + electrons)).flatMap
            fun q => if q < p then [(s, r, q, p)] else []).filter
    fun x => sz2 x.2.2.2 + sz2 x.2.2.1 - sz2 x.2.1 - sz2 x.1 = dsz2)

/-- Modelled from the spec: missing external `qml.qchem.active_space`.
Partitions the `orbitals` lowest-energy molecular orbitals of an
`electrons`-electron molecule into core orbitals (always doubly
occupied) and active orbitals: the `(electrons - active_electrons) / 2`
lowest orbitals are core and the next `active_orbitals` orbitals are
active. -/
def active_space (electrons orbitals active_electrons active_orbitals : ℕ) :
    List ℕ × List ℕ :=
  let ncore := (electrons - active_electrons) / 2
  (List.range ncore, (List.range active_orbitals).map (· + ncore))

/-- Modelled from the spec: missing external basis-set data.  Number of
spatial molecular orbitals contributed by one atom in the minimal
(sto-3g) basis set: one for hydrogen, five (1s 2s 2px 2py 2pz) for
oxygen. -/
def sto3gOrbitals (symbol : String) : ℕ :=
  if symbol = "H" then 1 else if symbol = "O" then 5 else 0

/-- Modelled from the spec: missing external
`qml.qchem.molecular_hamiltonian` qubit count.  The number of qubits is
the number of molecular spin-orbitals, i.e. twice the number of spatial
orbitals of the minimal basis set. -/
def molecularHamiltonianQubits (symbols : List String) : ℕ :=
  2 * (symbols.map sto3gOrbitals).sum

/-!  Molecular structures constructed by the scripts.  A structure is an
ordered list of atomic symbols paired with a flat list of Cartesian
coordinates in atomic units. -/

/-- The required relation between a structure's coordinate list and its
symbol list: three Cartesian coordinates per atom. -/
def molInvariant (symbols : List String) (coordinates : List ℚ) : Prop :=
  coordinates.length = 3 * symbols.length

/-- Water molecule of `tutorial_quantum_chemistry.py`:
`symbols = ["H", "O", "H"]`. -/
def h2o_symbols : List String := ["H", "O", "H"]

/-- Water coordinates of `tutorial_quantum_chemistry.py`. -/
def h2o_coordinates : List ℚ :=
  [-399/10000, -38/10000, 0, 15780/10000, 8540/10000, 0,
    27909/10000, -5159/10000, 0]

/-- Hydrogen molecule of `tutorial_vqe_spin_sectors.py`:
`symbols = ["H", "H"]`. -/
def h2_symbols : List String := ["H", "H"]

/-- Hydrogen coordinates of `tutorial_vqe_spin_sectors.py`:
`np.array([0.0, 0.0, -0.6614, 0.0, 0.0, 0.6614])`. -/
def h2_coordinates : List ℚ :=
  [0, 0, -6614/10000, 0, 0, 6614/10000]

/-- Hydrogen symbols built inside the bond-dissociation loop of
`tutorial_vqe_bond_dissociation.py`. -/
def bond_symbols : List String := ["H", "H"]

/-- Coordinates built inside the bond-dissociation loop for internuclear
distance `r_HH`: `np.array([0.0, 0.0, 0.0, 0.0, 0.0, r_HH])`. -/
def bond_coordinates (r_HH : ℚ) : List ℚ := [0, 0, 0, 0, 0, r_HH]

/-!  Straight-line script execution.  Each script is a sequence of calls
into external libraries with no error handling of its own: an error
raised by any call propagates, aborting the remainder of the script and
leaving all state produced by the earlier calls as it was. -/

/-- Runs a straight-line script, a list of external calls each of which
transforms the accumulated state or fails.  On the first failing call
the script aborts, returning that call's error together with the state
accumulated so far; no later call runs. -/
def runScript {σ ε : Type} : List (σ → Except ε σ) → σ → Except (ε × σ) σ
  | [], s => Except.ok s
  | f :: rest, s =>
    match f s with
    | Except.error e => Except.error (e, s)
    | Except.ok s' => runScript rest s'

/-!  Random-number generation in `tutorial_vqe_spin_sectors.py`.  The
script calls `np.random.seed(0)` immediately before each of its two
draws of initial circuit parameters (`np.random.normal(0, np.pi,
len(singles) + len(doubles))`), so the drawn vectors do not depend on
the generator state the script starts with. -/

/-- Modelled from the spec: missing external `numpy.random` generator.
A deterministic pseudo-random library over generator states `S`:
re-seeding replaces the state, and drawing `n` normal samples returns
`n` samples together with the advanced state. -/
structure RngLib (S : Type) where
  seed : ℕ → S
  normal : S → ℕ → List ℚ × S
  normal_length : ∀ s n, (normal s n).1.length = n

/-- `np.random.seed(0)` followed by `np.random.normal(0, np.pi, n)`:
the incoming generator state `s` is overwritten by the re-seeding. -/
def seedAndDraw {S : Type} (lib : RngLib S) (s : S) (n : ℕ) : List ℚ × S :=
  lib.normal (lib.seed 0) n

/-- The two initial-parameter draws performed by
`tutorial_vqe_spin_sectors.py` (lines 228-229 and 290-291), starting
from generator state `s0`: each is preceded by `np.random.seed(0)`,
and the second starts from the state left by the first. -/
def spinScriptDraws {S : Type} (lib : RngLib S) (s0 : S) (n1 n2 : ℕ) :
    List ℚ × List ℚ :=
  let d1 := seedAndDraw lib s0 n1
  let d2 := seedAndDraw lib d1.2 n2
  (d1.1, d2.1)

/-- A full run of the spin-sectors script's two optimizations from
generator state `s0`: draw the two initial parameter vectors (of sizes
`len(singles) + len(doubles)` for `delta_sz = 0` and `delta_sz = 1`),
then run each VQE loop; the run record holds both drawn vectors, both
iteration counts, and both parameter trajectories. -/
def spinScriptRun {P S : Type} (lib : RngLib S) (mk : List ℚ → P)
    (sc1 sc2 : P → P × ℚ) (cost1 cost2 : P → ℚ) (s0 : S) :
    (List ℚ × ℕ × (ℕ → P)) × (List ℚ × ℕ × (ℕ → P)) :=
  let d := spinScriptDraws lib s0
    ((singlesExc 2 4 0).length + (doublesExc 2 4 0).length)
    ((singlesExc 2 4 2).length + (doublesExc 2 4 2).length)
  ((d.1, spinIters sc1 cost1 max_iterations (mk d.1), thetaSeq sc1 (mk d.1)),
   (d.2, spinIters sc2 cost2 max_iterations (mk d.2), thetaSeq sc2 (mk d.2)))

/-!  Concrete instances used to witness the loop theorems. -/

/-- A concrete optimizer update halving the (one-dimensional) parameter,
reporting the pre-step cost, for the cost function `fun q => q`. -/
def scHalf : ℚ → ℚ × ℚ := fun θ => (θ / 2, θ)

/-- The identity cost function on one-dimensional parameters. -/
def costId : ℚ → ℚ := fun q => q

lemma thetaSeq_scHalf (n : ℕ) : thetaSeq scHalf 1 n = (1 / 2 : ℚ) ^ n := by
  induction n with
  | zero => norm_num [thetaSeq]
  | succ n ih =>
    show (scHalf (thetaSeq scHalf 1 n)).1 = _
    rw [ih]
    show (1 / 2 : ℚ) ^ n / 2 = _
    rw [pow_succ]
    ring

lemma bondE_scHalf (n : ℕ) : bondE scHalf 1 n = (1 / 2 : ℚ) ^ n := by
  show (scHalf (thetaSeq scHalf 1 n)).2 = _
  rw [thetaSeq_scHalf]
  rfl

lemma pow_half_lt_succ (n : ℕ) : (1 / 2 : ℚ) ^ (n + 1) < (1 / 2 : ℚ) ^ n := by
  rw [pow_succ]
  nlinarith [pow_pos (by norm_num : (0 : ℚ) < 1 / 2) n]

/-- C1: For every energy sequence produced by the VQE optimization loop
that is strictly decreasing and approaches a fixed point, the loop
terminates as soon as the absolute difference between two consecutive
energies is below the declared tolerance (1e-6), and in every case the
loop performs at most the declared maximum number of iterations (100 in
the spin-sectors loop, 40 in the bond-dissociation loop). -/
theorem vqe_loop_termination_bound {P Q : Type}
    (sc : P → P × ℚ) (cost : P → ℚ) (θ0 : P) (k : ℕ)
    (hsc : ∀ θ, (sc θ).2 = cost θ)
    (hdec : ∀ n, cost (thetaSeq sc θ0 (n + 1)) < cost (thetaSeq sc θ0 n))
    (hk : |cost (thetaSeq sc θ0 (k + 1)) - cost (thetaSeq sc θ0 k)| < conv_tol)
    (sc' : Q → Q × ℚ) (p0 : Q) (k' : ℕ)
    (hdec' : ∀ n, bondE sc' p0 (n + 1) < bondE sc' p0 n)
    (hk' : |bondE sc' p0 (k' + 1) - bondE sc' p0 k'| < conv_tol) :
    (spinIters sc cost max_iterations θ0 ≤ k + 1 ∧
      spinIters sc cost max_iterations θ0 ≤ max_iterations) ∧
    (bondIters sc' 40 p0 0 ≤ k' + 2 ∧ bondIters sc' 40 p0 0 ≤ 40) := by
  refine ⟨⟨?_, spinIters_le_fuel sc cost max_iterations θ0⟩,
    ⟨?_, bondIters_le_fuel sc' 40 p0 0⟩⟩
  · apply spinIters_stop
    show |cost (thetaSeq sc θ0 (k + 1)) - (sc (thetaSeq sc θ0 k)).2| ≤ conv_tol
    rw [hsc]
    exact le_of_lt hk
  · show bondIters sc' 40 p0 0 ≤ (k' + 1) + 1
    apply bondIters_stop
    exact hk'

/-- Witness for C1: the halving optimizer on cost `fun q => q` from
initial parameter 1 yields the strictly decreasing energy sequence
`(1/2)^n` whose consecutive difference at index 20 is below 1e-6. -/
theorem vqe_loop_termination_bound_witness :
    (∀ θ : ℚ, (scHalf θ).2 = costId θ) ∧
    (∀ n, costId (thetaSeq scHalf 1 (n + 1)) < costId (thetaSeq scHalf 1 n)) ∧
    |costId (thetaSeq scHalf 1 21) - costId (thetaSeq scHalf 1 20)| < conv_tol ∧
    (∀ n, bondE scHalf 1 (n + 1) < bondE scHalf 1 n) ∧
    |bondE scHalf 1 21 - bondE scHalf 1 20| < conv_tol ∧
    ((spinIters scHalf costId max_iterations 1 ≤ 21 ∧
      spinIters scHalf costId max_iterations 1 ≤ max_iterations) ∧
      (bondIters scHalf 40 1 0 ≤ 22 ∧ bondIters scHalf 40 1 0 ≤ 40)) := by
  have hsc : ∀ θ : ℚ, (scHalf θ).2 = costId θ := fun _ => rfl
  have hdec : ∀ n, costId (thetaSeq scHalf 1 (n + 1)) < costId (thetaSeq scHalf 1 n) := by
    intro n
    show thetaSeq scHalf 1 (n + 1) < thetaSeq scHalf 1 n
    rw [thetaSeq_scHalf, thetaSeq_scHalf]
    exact pow_half_lt_succ n
  have hk : |costId (thetaSeq scHalf 1 21) - costId (thetaSeq scHalf 1 20)| < conv_tol := by
    show |thetaSeq scHalf 1 21 - thetaSeq scHalf 1 20| < conv_tol
    rw [thetaSeq_scHalf, thetaSeq_scHalf]
    rw [abs_sub_lt_iff]
    constructor <;> norm_num [conv_tol]
  have hdec' : ∀ n, bondE scHalf 1 (n + 1) < bondE scHalf 1 n := by
    intro n
    rw [bondE_scHalf, bondE_scHalf]
    exact pow_half_lt_succ n
  have hk' : |bondE scHalf 1 21 - bondE scHalf 1 20| < conv_tol := by
    rw [bondE_scHalf, bondE_scHalf]
    rw [abs_sub_lt_iff]
    constructor <;> norm_num [conv_tol]
  exact ⟨hsc, hdec, hk, hdec', hk',
    vqe_loop_termination_bound scHalf costId 1 20 hsc hdec hk scHalf 1 20 hdec' hk'⟩

/-- A degenerate optimizer update on a trivial parameter space reporting
energy 0 before every step. -/
def scUnit : Unit → Unit × ℚ := fun _ => ((), 0)

/-- The constant cost function whose value is exactly the tolerance. -/
def costTol : Unit → ℚ := fun _ => conv_tol

/-- Counterexample to C2: in the spin-sectors loop the break test is
`conv <= conv_tol`, not a strict comparison, so a run whose tested
energy change equals exactly 1e-6 on its first iteration stops after one
iteration (well before the 100-iteration cap) even though the change
never fell strictly below the tolerance. -/
theorem vqe_spin_loop_stops_at_tolerance_boundary :
    spinIters scUnit costTol max_iterations () = 1 ∧
    ¬ spinConv scUnit costTol () 0 < conv_tol ∧
    1 < max_iterations := by
  have habs : |costTol (thetaSeq scUnit () 1) - (scUnit (thetaSeq scUnit () 0)).2|
      = conv_tol := by
    show |conv_tol - 0| = conv_tol
    rw [sub_zero, abs_of_nonneg (by norm_num [conv_tol])]
  refine ⟨?_, ?_, by norm_num [max_iterations]⟩
  · exact spinIters_eq_stop scUnit costTol () 0 max_iterations
      (fun j hj => absurd hj (Nat.not_lt_zero j)) (le_of_eq habs)
      (by norm_num [max_iterations])
  · show ¬ |costTol (thetaSeq scUnit () 1) - (scUnit (thetaSeq scUnit () 0)).2|
      < conv_tol
    rw [habs]
    exact lt_irrefl conv_tol

/-- C2 as amended: the spin-sectors loop runs for exactly
`min(100, k+1)` iterations where `k` is the first iteration whose tested
energy change is at most (`<=`, not strictly below) the tolerance 1e-6,
and the bond-dissociation loop runs for exactly `min(40, k+1)`
iterations where `k` is the first iteration whose tested change —
measured against a previous energy initialized to 0.0 — is strictly
below 1e-6; no other condition terminates either loop early. -/
theorem vqe_loop_stopping_characterization {P Q : Type}
    (sc : P → P × ℚ) (cost : P → ℚ) (θ0 : P) (sc' : Q → Q × ℚ) (p0 : Q) :
    spinIters sc cost max_iterations θ0 =
      (if h : ∃ k, k < max_iterations ∧ spinConv sc cost θ0 k ≤ conv_tol
        then Nat.find h + 1 else max_iterations) ∧
    bondIters sc' 40 p0 0 =
      (if h : ∃ k, k < 40 ∧ bondConv sc' p0 k < conv_tol
        then Nat.find h + 1 else 40) := by
  constructor
  · split
    · case isTrue h =>
      have hfind := Nat.find_spec h
      apply spinIters_eq_stop
      · intro j hj
        by_contra hle
        exact Nat.find_min h hj ⟨lt_trans hj hfind.1, not_lt.mp hle⟩
      · exact hfind.2
      · exact hfind.1
    · case isFalse h =>
      apply spinIters_eq_max
      intro j hj
      by_contra hle
      exact h ⟨j, hj, not_lt.mp hle⟩
  · split
    · case isTrue h =>
      have hfind := Nat.find_spec h
      apply bondIters_eq_stop
      · intro j hj
        by_contra hle
        exact Nat.find_min h hj ⟨lt_trans hj hfind.1, not_le.mp hle⟩
      · exact hfind.2
      · exact hfind.1
    · case isFalse h =>
      apply bondIters_eq_max
      intro j hj
      by_contra hle
      exact h ⟨j, hj, not_le.mp hle⟩

/-- A concrete optimizer update on one-dimensional parameters adding one
per step and reporting the pre-step cost for the cost `fun q => q`. -/
def scLin : ℚ → ℚ × ℚ := fun q => (q + 1, q)

/-- Counterexample to C3: in the bond-dissociation loop the energy is
not recomputed at the updated parameter vector — the tested value is the
pre-step cost returned by the optimizer call, and the first iteration
compares it against the initial `prev_energy = 0.0`.  With cost
`fun q => q`, update `fun q => q + 1` and initial parameter 5, the first
tested difference is 5, whereas the difference between the energies of
the two successive parameter vectors is 1. -/
theorem bond_loop_tested_difference_not_successive :
    bondConv scLin 5 0 = 5 ∧
    |costId ((scLin 5).1) - costId 5| = 1 ∧
    (5 : ℚ) ≠ 1 := by
  refine ⟨?_, ?_, by norm_num⟩
  · show |(scLin 5).2 - 0| = 5
    norm_num [scLin]
  · norm_num [costId, scLin]

/-- C3 as amended: in each iteration of either loop exactly one
optimizer step is applied.  In the spin-sectors loop the energy is then
recomputed at the updated parameter vector and the tested difference is
the difference between the energies of the two successive parameter
vectors.  In the bond-dissociation loop the tested energy is the
pre-step cost returned by the optimizer call: the first iteration
compares it against the initial value 0.0, and every later iteration
tests the difference between the pre-step energies of two successive
parameter vectors. -/
theorem vqe_loop_step_energy_accounting {P Q : Type}
    (sc : P → P × ℚ) (cost : P → ℚ) (hsc : ∀ θ, (sc θ).2 = cost θ)
    (θ0 : P) (n : ℕ)
    (sc' : Q → Q × ℚ) (cost' : Q → ℚ) (hsc' : ∀ p, (sc' p).2 = cost' p)
    (p0 : Q) (m : ℕ) :
    thetaSeq sc θ0 (n + 1) = (sc (thetaSeq sc θ0 n)).1 ∧
    spinConv sc cost θ0 n =
      |cost (thetaSeq sc θ0 (n + 1)) - cost (thetaSeq sc θ0 n)| ∧
    bondE sc' p0 m = cost' (thetaSeq sc' p0 m) ∧
    bondConv sc' p0 0 = |cost' p0 - 0| ∧
    bondConv sc' p0 (m + 1) =
      |cost' (thetaSeq sc' p0 (m + 1)) - cost' (thetaSeq sc' p0 m)| := by
  refine ⟨rfl, ?_, ?_, ?_, ?_⟩
  · show |cost (thetaSeq sc θ0 (n + 1)) - (sc (thetaSeq sc θ0 n)).2| = _
    rw [hsc]
  · show (sc' (thetaSeq sc' p0 m)).2 = _
    rw [hsc']
  · show |(sc' (thetaSeq sc' p0 0)).2 - 0| = _
    rw [hsc']
    rfl
  · show |(sc' (thetaSeq sc' p0 (m + 1))).2 - (sc' (thetaSeq sc' p0 m)).2| = _
    rw [hsc', hsc']

/-- Witness for the amended C3 at the halving optimizer with cost
`fun q => q` and initial parameter 1, at the first loop iteration. -/
theorem vqe_loop_step_energy_accounting_witness :
    (∀ θ : ℚ, (scHalf θ).2 = costId θ) ∧
    (thetaSeq scHalf 1 1 = (scHalf (thetaSeq scHalf 1 0)).1 ∧
      spinConv scHalf costId 1 0 =
        |costId (thetaSeq scHalf 1 1) - costId (thetaSeq scHalf 1 0)| ∧
      bondE scHalf 1 0 = costId (thetaSeq scHalf 1 0) ∧
      bondConv scHalf 1 0 = |costId 1 - 0| ∧
      bondConv scHalf 1 1 =
        |costId (thetaSeq scHalf 1 1) - costId (thetaSeq scHalf 1 0)|) := by
  have hsc : ∀ θ : ℚ, (scHalf θ).2 = costId θ := fun _ => rfl
  exact ⟨hsc,
    vqe_loop_step_energy_accounting scHalf costId hsc 1 0 scHalf costId hsc 1 0⟩

/-- C4: for the same number of electrons, qubits, and reference
occupation, the excitation lists for `delta_sz = 0` and `delta_sz = 1`
are deterministic (for the scripts' inputs `electrons = 2`,
`qubits = 4` they are the fixed lists printed by the tutorial) and
pairwise disjoint: no single-excitation pair and no double-excitation
tuple appears in both results.  (`delta_sz` is carried in halves as
`dsz2 = 2 * delta_sz`.) -/
theorem excitations_disjoint_deterministic :
    (singlesExc 2 4 0 = [(0, 2), (1, 3)] ∧
      doublesExc 2 4 0 = [(0, 1, 2, 3)] ∧
      singlesExc 2 4 2 = [(1, 2)] ∧
      doublesExc 2 4 2 = []) ∧
    (∀ e o : ℕ, ∀ x : ℕ × ℕ,
      x ∈ singlesExc e o 0 → x ∉ singlesExc e o 2) ∧
    (∀ e o : ℕ, ∀ y : ℕ × ℕ × ℕ × ℕ,
      y ∈ doublesExc e o 0 → y ∉ doublesExc e o 2) := by
  refine ⟨by decide, ?_, ?_⟩
  · intro e o x h0 h2
    simp only [singlesExc, List.mem_filter, decide_eq_true_eq] at h0 h2
    have a0 := h0.2
    have a2 := h2.2
    omega
  · intro e o y h0 h2
    simp only [doublesExc, List.mem_filter, decide_eq_true_eq] at h0 h2
    have a0 := h0.2
    have a2 := h2.2
    omega

/-- Witness for C4 at the spin-sectors inputs: the single excitation
`(0, 2)` is in the `delta_sz = 0` list and hence not in the
`delta_sz = 1` list. -/
theorem excitations_disjoint_deterministic_witness :
    ((0, 2) ∈ singlesExc 2 4 0) ∧ ((0, 2) ∉ singlesExc 2 4 2) :=
  ⟨by decide, excitations_disjoint_deterministic.2.1 2 4 (0, 2) (by decide)⟩

/-- C5: active-space selection with 10 electrons, 7 orbitals, 4 active
electrons and 4 active orbitals returns the fixed partition with core
orbitals `[0, 1, 2]` and active orbitals `[3, 4, 5, 6]`, and the
resulting qubit count, twice the number of active orbitals, is 8. -/
theorem active_space_partition :
    active_space 10 7 4 4 = ([0, 1, 2], [3, 4, 5, 6]) ∧
    2 * (active_space 10 7 4 4).2.length = 8 := by
  exact ⟨by decide, by decide⟩

/-- C6: for the hydrogen molecule at coordinates
`(0, 0, -0.6614)`–`(0, 0, 0.6614)` bohr in the default minimal basis
set, the molecular-Hamiltonian construction reports 4 qubits (four
molecular spin-orbitals). -/
theorem h2_qubit_count :
    molecularHamiltonianQubits h2_symbols = 4 ∧
    molInvariant h2_symbols h2_coordinates := by
  exact ⟨rfl, rfl⟩

/-- C7: every molecular structure constructed by the scripts — the water
molecule of the quantum-chemistry tutorial, the hydrogen molecule of the
spin-sectors tutorial, and the hydrogen geometry built for every
internuclear distance of the bond-dissociation loop — has a coordinate
list of length exactly three times its symbol list. -/
theorem molecular_structure_invariant :
    molInvariant h2o_symbols h2o_coordinates ∧
    molInvariant h2_symbols h2_coordinates ∧
    ∀ r_HH : ℚ, molInvariant bond_symbols (bond_coordinates r_HH) :=
  ⟨rfl, rfl, fun _ => rfl⟩

/-- C8: the scripts contain no error handling.  Whenever the first part
of a script runs to completion producing state `s1` and the next
external call fails, the whole script aborts with that call's error: the
remaining calls never run, there is no retry or recovery, and the state
produced before the failure is left as it was. -/
theorem script_aborts_at_first_failure {σ ε : Type}
    (pre : List (σ → Except ε σ)) (f : σ → Except ε σ)
    (rest : List (σ → Except ε σ)) (s0 s1 : σ) (e : ε)
    (hpre : runScript pre s0 = Except.ok s1) (hf : f s1 = Except.error e) :
    runScript (pre ++ f :: rest) s0 = Except.error (e, s1) := by
  induction pre generalizing s0 with
  | nil =>
    simp only [runScript] at hpre
    injection hpre with h
    subst h
    simp only [List.nil_append, runScript, hf]
  | cons g pre ih =>
    simp only [runScript] at hpre
    simp only [List.cons_append, runScript]
    cases hg : g s0 with
    | error e' =>
      rw [hg] at hpre
      exact absurd hpre (by simp)
    | ok s' =>
      rw [hg] at hpre
      exact ih s' hpre

/-- Witness for C8: a two-call script over natural-number state whose
first call increments the state and whose second call fails with error
7 aborts with error 7 and the incremented state 1. -/
theorem script_aborts_at_first_failure_witness :
    (runScript [fun n : ℕ => (Except.ok (n + 1) : Except ℕ ℕ)] 0
      = Except.ok 1) ∧
    runScript
      ([fun n : ℕ => (Except.ok (n + 1) : Except ℕ ℕ)] ++
        [fun _ : ℕ => Except.error 7]) 0
      = Except.error (7, 1) :=
  ⟨rfl, script_aborts_at_first_failure
    [fun n : ℕ => (Except.ok (n + 1) : Except ℕ ℕ)]
    (fun _ : ℕ => Except.error 7) [] 0 1 7 rfl rfl⟩

/-- C9: the bond-dissociation loop initializes `prev_energy` to 0.0, so
its first convergence test compares the first produced energy against
0.0 rather than against a previously computed energy; for any geometry
whose first energy estimate has absolute value below 1e-6, the loop
exits after a single optimizer step. -/
theorem bond_loop_first_test_against_zero {P : Type}
    (sc : P → P × ℚ) (p0 : P) (h : |(sc p0).2| < conv_tol) :
    bondConv sc p0 0 = |(sc p0).2 - 0| ∧
    bondIters sc 40 p0 0 = 1 := by
  refine ⟨rfl, ?_⟩
  show (if |(sc p0).2 - 0| < conv_tol then 1
    else bondIters sc 39 ((sc p0).1) ((sc p0).2) + 1) = 1
  rw [if_pos]
  rw [sub_zero]
  exact h

/-- Witness for C9: an optimizer whose first reported energy is 0
(absolute value below 1e-6) makes the bond-dissociation loop exit after
one step from initial parameter 5. -/
theorem bond_loop_first_test_against_zero_witness :
    (|((fun q : ℚ => (q, (0 : ℚ))) 5).2| < conv_tol) ∧
    (bondConv (fun q : ℚ => (q, (0 : ℚ))) 5 0
        = |((fun q : ℚ => (q, (0 : ℚ))) 5).2 - 0| ∧
      bondIters (fun q : ℚ => (q, (0 : ℚ))) 40 5 0 = 1) := by
  have h : |((fun q : ℚ => (q, (0 : ℚ))) 5).2| < conv_tol := by
    norm_num [conv_tol]
  exact ⟨h, bond_loop_first_test_against_zero (fun q : ℚ => (q, (0 : ℚ))) 5 h⟩

/-- C10: the spin-sectors script calls `np.random.seed(0)` immediately
before drawing each initial parameter vector (of length
`len(singles) + len(doubles)`), so for a fixed behavior of the external
libraries two runs started from arbitrary generator states produce
identical drawn vectors, iteration counts and parameter trajectories,
and the first drawn vector has length equal to the number of single
plus double excitations. -/
theorem spin_script_rng_determinism {P S : Type} (lib : RngLib S)
    (mk : List ℚ → P) (sc1 sc2 : P → P × ℚ) (cost1 cost2 : P → ℚ)
    (s0 s0' : S) :
    spinScriptRun lib mk sc1 sc2 cost1 cost2 s0
      = spinScriptRun lib mk sc1 sc2 cost1 cost2 s0' ∧
    (spinScriptRun lib mk sc1 sc2 cost1 cost2 s0).1.1.length
      = (singlesExc 2 4 0).length + (doublesExc 2 4 0).length :=
  ⟨rfl, lib.normal_length _ _⟩
